import Mathlib

/-!
Verification of the zk-fuzz-lab differential fuzzing harness.

This file shallowly embeds the Rust sources of the repository:
  - the equivalence oracle (`oracles/rust_eq/src/lib.rs`),
  - the guest cores (`guest/cores/*/src/lib.rs`),
  - the native runner (`runners/native/src/main.rs`),
  - the SP1 (zkVM) runner (`runners/sp1/src/main.rs`),
  - the input mutator (`mutators/source_mut/src/lib.rs`),
and proves the testable properties stated in the specification.

Modelling conventions:
  - `u32`/`u64`/`u128` are `Nat` with an explicit `% 2^w` wherever Rust
    wraps or casts; panics and recoverable errors are `Except String`.
  - `serde_json::Value` is the inductive `Json` below; the system only
    ever produces nonnegative integer numbers, so `Json.num` holds a `Nat`.
  - Threads and channels are made explicit: each runner model takes the
    outcome of the race between the worker thread and the receive deadline
    as a boolean parameter, and the measured wall-clock time as a `Nat`
    parameter, since wall time is not a function of the input.
-/

namespace ZkFuzz

/-- Model of `serde_json::Value` restricted to the shapes this system
produces (all numbers in the repository are nonnegative integers). -/
inductive Json where
  | null : Json
  | bool (b : Bool) : Json
  | num (n : Nat) : Json
  | str (s : String) : Json
  | arr (elems : List Json) : Json
  | obj (fields : List (String × Json)) : Json

/-- Field lookup in a JSON object (first match), `none` otherwise. -/
def Json.getField (j : Json) (key : String) : Option Json :=
  match j with
  | .obj fields => (fields.find? (fun f => f.1 == key)).map (·.2)
  | _ => none

/-- Whether a JSON value is an object carrying the given key. -/
def Json.hasKey (j : Json) (key : String) : Bool :=
  match j with
  | .obj fields => fields.any (fun f => f.1 == key)
  | _ => false

/-- Embeds `Status` from `oracles/rust_eq/src/lib.rs`: status of a program
execution. -/
inductive Status where
  | Ok : Status
  | Panic : Status
  | Timeout : Status
deriving DecidableEq, Repr

/-- Rust `{:?}` rendering of `Status`, used by the oracle's messages. -/
def Status.debugRepr : Status → String
  | .Ok => "Ok"
  | .Panic => "Panic"
  | .Timeout => "Timeout"

/-- Embeds `RunResult` from `oracles/rust_eq/src/lib.rs`.  In the closed core
set every committed value is a `u32`, so `commits` is modelled as
`List Nat`; `meta` keeps its free-form JSON shape. -/
structure RunResult where
  status : Status
  elapsed_ms : Nat
  commits : List Nat
  meta : Json

/-- Embeds `Diff` from `oracles/rust_eq/src/lib.rs`. -/
structure Diff where
  equal : Bool
  reason : Option String
  timing_delta_ms : Option Nat

/-- Rust `Debug` rendering of a commit vector, used only inside the
mismatch message text. -/
def commitsDebugRepr (commits : List Nat) : String :=
  "[" ++ String.intercalate ", " (commits.map toString) ++ "]"

/-- Embeds `u128::abs_diff` from the oracle: `|a - b|` on naturals. -/
def absDiff (a b : Nat) : Nat :=
  if a ≥ b then a - b else b - a

/-- Embeds `compare` from `oracles/rust_eq/src/lib.rs`: the equivalence oracle.
Compares status first, then (when both `Ok`) the commit streams; the
timing delta is attached in every branch and `meta` is never read. -/
def compare (native zkvm : RunResult) : Diff :=
  if native.status ≠ zkvm.status then
    { equal := false
      reason := some ("status mismatch: native=" ++ native.status.debugRepr
        ++ ", zkvm=" ++ zkvm.status.debugRepr)
      timing_delta_ms := some (absDiff native.elapsed_ms zkvm.elapsed_ms) }
  else if native.status = Status.Ok ∧ native.commits ≠ zkvm.commits then
    { equal := false
      reason := some ("commit stream mismatch: native=" ++ commitsDebugRepr native.commits
        ++ " vs zkvm=" ++ commitsDebugRepr zkvm.commits)
      timing_delta_ms := some (absDiff native.elapsed_ms zkvm.elapsed_ms) }
  else
    { equal := true
      reason := none
      timing_delta_ms := some (absDiff native.elapsed_ms zkvm.elapsed_ms) }

/-! ## Guest cores (`guest/cores/*/src/lib.rs`)

Each core is a pure function from a typed input record to a typed output
record.  A Rust panic is modelled as `Except.error` carrying the panic
message; the `timeout_test` infinite loop is modelled as `none`. -/

namespace fib_core

/-- Embeds `FibInput` from `guest/cores/fib/src/lib.rs` (`n : u32`). -/
structure FibInput where
  n : Nat

/-- Embeds `FibOutput` from `guest/cores/fib/src/lib.rs`. -/
structure FibOutput where
  n : Nat
  a : Nat
  b : Nat

/-- One iteration of the fib loop body: `c = a + b` as a `u32` addition
(wrapping in release mode, hence the explicit `% 2^32`), then
`c %= 7919`, then `a = b; b = c`. -/
def fibStep (p : Nat × Nat) : Nat × Nat :=
  (p.2, ((p.1 + p.2) % 4294967296) % 7919)

/-- The loop `for _ in 0..n` of `fib_core::run`: `n` applications of
`fibStep` starting from `a = 0, b = 1`. -/
def fibIter : Nat → Nat × Nat
  | 0 => (0, 1)
  | n + 1 => fibStep (fibIter n)

/-- The same loop body on unbounded naturals (`c = (a + b) % 7919` with
no `u32` wrap): reference for the no-overflow statement. -/
def fibStepNoWrap (p : Nat × Nat) : Nat × Nat :=
  (p.2, (p.1 + p.2) % 7919)

/-- The loop with the mathematically exact step. -/
def fibIterNoWrap : Nat → Nat × Nat
  | 0 => (0, 1)
  | n + 1 => fibStepNoWrap (fibIterNoWrap n)

/-- Embeds `run` from `guest/cores/fib/src/lib.rs`. -/
def run (input : FibInput) : FibOutput :=
  let p := fibIter input.n
  { n := input.n, a := p.1, b := p.2 }

end fib_core

namespace arithmetic_core

/-- Embeds `ArithmeticInput` from `guest/cores/arithmetic/src/lib.rs`. -/
structure ArithmeticInput where
  a : Nat
  b : Nat
  operation : String

/-- Embeds `ArithmeticOutput` from `guest/cores/arithmetic/src/lib.rs`. -/
structure ArithmeticOutput where
  result : Nat
  overflowed : Bool

/-- Embeds `run` from `guest/cores/arithmetic/src/lib.rs`: `overflowing_add`,
`overflowing_sub`, `overflowing_mul` on `u32`, checked division, with
explicit panics for division by zero and unknown operations. -/
def run (input : ArithmeticInput) : Except String ArithmeticOutput :=
  if input.operation = "add" then
    .ok { result := (input.a + input.b) % 4294967296
          overflowed := decide (input.a + input.b ≥ 4294967296) }
  else if input.operation = "sub" then
    .ok { result := (input.a + 4294967296 - input.b) % 4294967296
          overflowed := decide (input.a < input.b) }
  else if input.operation = "mul" then
    .ok { result := (input.a * input.b) % 4294967296
          overflowed := decide (input.a * input.b ≥ 4294967296) }
  else if input.operation = "div" then
    if input.b = 0 then
      .error "Division by zero"
    else
      .ok { result := input.a / input.b, overflowed := false }
  else
    .error ("Unknown operation: " ++ input.operation)

end arithmetic_core

namespace io_echo_core

/-- Embeds `IoEchoInput` from `guest/cores/io_echo/src/lib.rs` (`data : Vec<u8>`,
bytes modelled as naturals below 256, enforced by the input decoder). -/
structure IoEchoInput where
  data : List Nat

/-- Embeds `IoEchoOutput` from `guest/cores/io_echo/src/lib.rs`. -/
structure IoEchoOutput where
  length : Nat
  first_byte : Option Nat
  last_byte : Option Nat

/-- Embeds `run` from `guest/cores/io_echo/src/lib.rs`: length as a `u32` cast,
first and last byte as options. -/
def run (input : IoEchoInput) : IoEchoOutput :=
  { length := input.data.length % 4294967296
    first_byte := input.data.head?
    last_byte := input.data.getLast? }

end io_echo_core

namespace panic_test_core

/-- Embeds `PanicInput` from `guest/cores/panic_test/src/lib.rs`: note the
field is named `panic_msg` (an `Option<String>`). -/
structure PanicInput where
  should_panic : Bool
  panic_msg : Option String

/-- Embeds `PanicOutput` from `guest/cores/panic_test/src/lib.rs`. -/
structure PanicOutput where
  should_panic_u32 : Nat
  status_code : Nat

/-- Embeds `run` from `guest/cores/panic_test/src/lib.rs`: panics with
`panic_msg` (default `"Intentional panic for testing"`) when
`should_panic` is set. -/
def run (input : PanicInput) : Except String PanicOutput :=
  if input.should_panic then
    .error (input.panic_msg.getD "Intentional panic for testing")
  else
    .ok { should_panic_u32 := if input.should_panic then 1 else 0
          status_code := 0 }

end panic_test_core

namespace timeout_test_core

/-- Embeds `TimeoutInput` from `guest/cores/timeout_test/src/lib.rs`
(`iterations : u64`). -/
structure TimeoutInput where
  iterations : Nat

/-- Embeds `TimeoutOutput` from `guest/cores/timeout_test/src/lib.rs`. -/
structure TimeoutOutput where
  completed : Nat

/-- Embeds `run` from `guest/cores/timeout_test/src/lib.rs`: `iterations = 0`
enters an infinite loop (modelled as `none`); otherwise the finite loop
only feeds `black_box` and the output echoes `iterations`. -/
def run (input : TimeoutInput) : Option TimeoutOutput :=
  if input.iterations = 0 then
    none
  else
    some { completed := input.iterations }

end timeout_test_core

namespace simple_struct_core

/-- Embeds `SimpleStructInput` from `guest/cores/simple_struct/src/lib.rs`. -/
structure SimpleStructInput where
  field1 : Nat
  field2 : String
  field3 : Bool

/-- Embeds `SimpleStructOutput` from `guest/cores/simple_struct/src/lib.rs`. -/
structure SimpleStructOutput where
  field1_echo : Nat
  field2_len : Nat
  field2_chars : Nat
  field3_echo : Bool

/-- Embeds `run` from `guest/cores/simple_struct/src/lib.rs`: byte length and
char count of `field2`, both as `u32` casts. -/
def run (input : SimpleStructInput) : SimpleStructOutput :=
  { field1_echo := input.field1
    field2_len := input.field2.utf8ByteSize % 4294967296
    field2_chars := input.field2.length % 4294967296
    field3_echo := input.field3 }

end simple_struct_core

/-! ## Input decoding (`serde_json::from_slice` into the input records)

serde's default behaviour for a plain derived struct: the document must
be an object, unknown keys are ignored, a missing field is an error
unless its type is an `Option` (then `None`), and integer fields reject
values outside the target type's range.  The error strings stand in for
serde's message text, which no claim depends on. -/

/-- Decode a JSON value as a `u32`. -/
def parseU32 (j : Json) : Except String Nat :=
  match j with
  | .num n => if n < 4294967296 then .ok n else .error "invalid value: u32 out of range"
  | _ => .error "invalid type: expected u32"

/-- Decode a JSON value as a `u64`. -/
def parseU64 (j : Json) : Except String Nat :=
  match j with
  | .num n => if n < 18446744073709551616 then .ok n else .error "invalid value: u64 out of range"
  | _ => .error "invalid type: expected u64"

/-- Decode a JSON value as a `u8`. -/
def parseU8 (j : Json) : Except String Nat :=
  match j with
  | .num n => if n < 256 then .ok n else .error "invalid value: u8 out of range"
  | _ => .error "invalid type: expected u8"

/-- Decode a JSON value as a `bool`. -/
def parseBool (j : Json) : Except String Bool :=
  match j with
  | .bool b => .ok b
  | _ => .error "invalid type: expected bool"

/-- Decode a JSON value as a `String`. -/
def parseString (j : Json) : Except String String :=
  match j with
  | .str s => .ok s
  | _ => .error "invalid type: expected string"

/-- Fetch a required field of a struct being deserialized. -/
def getRequired (j : Json) (key : String) : Except String Json :=
  match j.getField key with
  | some v => .ok v
  | none => .error ("missing field " ++ key)

/-- serde decode of `FibInput`. -/
def parseFibInput (j : Json) : Except String fib_core.FibInput := do
  let n ← parseU32 (← getRequired j "n")
  return { n := n }

/-- serde decode of `ArithmeticInput`. -/
def parseArithmeticInput (j : Json) : Except String arithmetic_core.ArithmeticInput := do
  let a ← parseU32 (← getRequired j "a")
  let b ← parseU32 (← getRequired j "b")
  let operation ← parseString (← getRequired j "operation")
  return { a := a, b := b, operation := operation }

/-- serde decode of `IoEchoInput` (`data : Vec<u8>`). -/
def parseIoEchoInput (j : Json) : Except String io_echo_core.IoEchoInput := do
  match ← getRequired j "data" with
  | .arr elems =>
      let data ← elems.mapM parseU8
      return { data := data }
  | _ => .error "invalid type: expected byte array"

/-- serde decode of `PanicInput`: the `panic_msg` field is an
`Option<String>`, so a missing key or `null` decodes to `none`; any
other key (such as `panic_message`) is ignored. -/
def parsePanicInput (j : Json) : Except String panic_test_core.PanicInput := do
  let sp ← parseBool (← getRequired j "should_panic")
  let pm ← match j.getField "panic_msg" with
    | none => pure none
    | some .null => pure none
    | some (.str s) => pure (some s)
    | some _ => Except.error "invalid type: expected string or null"
  return { should_panic := sp, panic_msg := pm }

/-- serde decode of `TimeoutInput`. -/
def parseTimeoutInput (j : Json) : Except String timeout_test_core.TimeoutInput := do
  let iterations ← parseU64 (← getRequired j "iterations")
  return { iterations := iterations }

/-- serde decode of `SimpleStructInput`. -/
def parseSimpleStructInput (j : Json) : Except String simple_struct_core.SimpleStructInput := do
  let field1 ← parseU32 (← getRequired j "field1")
  let field2 ← parseString (← getRequired j "field2")
  let field3 ← parseBool (← getRequired j "field3")
  return { field1 := field1, field2 := field2, field3 := field3 }

/-! ## Native runner (`runners/native/src/main.rs`) -/

/-- Encoding of `Option<u8>` into a `u32` commit, from the `io_echo`
arm of `run_core_dispatch`: `None → 0`, `Some(b) → 1 + b`. -/
def encodeOptU8 : Option Nat → Nat
  | none => 0
  | some b => 1 + b

/-- Outcome of one call of `run_core_dispatch` as observed by the worker
thread: a commit vector, a recoverable `anyhow` error (decode failure or
unknown core), an unwinding panic from the core, or divergence (the
`timeout_test` infinite loop). -/
inductive DispatchOutcome where
  | ok (commits : List Nat) : DispatchOutcome
  | err (msg : String) : DispatchOutcome
  | panicked (msg : String) : DispatchOutcome
  | diverged : DispatchOutcome
deriving DecidableEq, Repr

/-- Embeds `run_core_dispatch` from `runners/native/src/main.rs`: decode the
input for the named core, run the core, and encode its output fields
into the commit vector (`bool → u32` as 0/1, `Option<u8> → u32` via
`encodeOptU8`). -/
def run_core_dispatch (core_name : String) (input : Json) : DispatchOutcome :=
  if core_name = "fib" then
    match parseFibInput input with
    | .error e => .err e
    | .ok i =>
        let o := fib_core.run i
        .ok [o.n, o.a, o.b]
  else if core_name = "panic_test" then
    match parsePanicInput input with
    | .error e => .err e
    | .ok i =>
        match panic_test_core.run i with
        | .error msg => .panicked msg
        | .ok o => .ok [o.should_panic_u32, o.status_code]
  else if core_name = "timeout_test" then
    match parseTimeoutInput input with
    | .error e => .err e
    | .ok i =>
        match timeout_test_core.run i with
        | none => .diverged
        | some o => .ok [o.completed]
  else if core_name = "io_echo" then
    match parseIoEchoInput input with
    | .error e => .err e
    | .ok i =>
        let o := io_echo_core.run i
        .ok [o.length, encodeOptU8 o.first_byte, encodeOptU8 o.last_byte]
  else if core_name = "arithmetic" then
    match parseArithmeticInput input with
    | .error e => .err e
    | .ok i =>
        match arithmetic_core.run i with
        | .error msg => .panicked msg
        | .ok o => .ok [o.result, if o.overflowed then 1 else 0]
  else if core_name = "simple_struct" then
    match parseSimpleStructInput input with
    | .error e => .err e
    | .ok i =>
        let o := simple_struct_core.run i
        .ok [o.field1_echo, o.field2_len, o.field2_chars, if o.field3_echo then 1 else 0]
  else
    .err ("Unknown core: " ++ core_name)

/-- The `Timeout` RunResult built by the native runner when
`rx.recv_timeout` expires (`timeoutSecs` is the CLI timeout in seconds;
`elapsed_ms = timeout_duration.as_millis()`). -/
def nativeTimeoutResult (timeoutSecs : Nat) : RunResult :=
  { status := Status.Timeout
    elapsed_ms := timeoutSecs * 1000
    commits := []
    meta := Json.obj [("runner", Json.str "native"),
                      ("timeout_secs", Json.num timeoutSecs)] }

/-- What the worker thread of `run_core_with_safeguards` sends on the
channel: `none` when the core diverges (nothing is ever sent).  The
`catch_unwind` around the core call converts a panic into a `Panic`
RunResult with `elapsed_ms = 0`; a recoverable dispatch error is sent
through as `Err` (a harness-level error); on success the measured wall
time `elapsedMs` is attached. -/
def nativeWorkerSend (core_name : String) (input : Json) (elapsedMs : Nat) :
    Option (Except String RunResult) :=
  match run_core_dispatch core_name input with
  | .ok commits =>
      some (.ok { status := Status.Ok
                  elapsed_ms := elapsedMs
                  commits := commits
                  meta := Json.obj [("runner", Json.str "native")] })
  | .err e => some (.error e)
  | .panicked msg =>
      some (.ok { status := Status.Panic
                  elapsed_ms := 0
                  commits := []
                  meta := Json.obj [("runner", Json.str "native"),
                                    ("panic_msg", Json.str msg)] })
  | .diverged => none

/-- Embeds `run_core_with_safeguards` from `runners/native/src/main.rs`.
`timeoutSecs = none` models a `0` CLI timeout (block forever);
`timedOut` resolves the race between the worker's send and the receive
deadline when both are possible.  The overall `none` is the
configuration in which the call never returns (no deadline and a
diverging core); the worker thread itself never panics (everything it
does is inside `catch_unwind`), so the `Disconnected` arm of the
receive is unreachable. -/
def run_core_with_safeguards (core_name : String) (input : Json)
    (timeoutSecs : Option Nat) (timedOut : Bool) (elapsedMs : Nat) :
    Option (Except String RunResult) :=
  let worker := nativeWorkerSend core_name input elapsedMs
  match timeoutSecs with
  | some t =>
      match worker with
      | none => some (.ok (nativeTimeoutResult t))
      | some res => if timedOut then some (.ok (nativeTimeoutResult t)) else some res
  | none => worker

/-! ## SP1 (zkVM) runner (`runners/sp1/src/main.rs`)

The SP1 SDK is external: the executor call
`client.execute(&elf_bytes, &stdin).run()` is modelled by its outcome
`exec`, either an error message or the pair (public-values stream,
cycle count), where the stream is the list of `u32` scalars available
to `public_values.read::<u32>()`.  A read past the end of the stream
panics (the `num_commits = None` arm of the source wraps each read in
`catch_unwind` precisely to detect that panic); in the
`num_commits = Some(n)` arm the read is NOT wrapped, so such a panic
unwinds the worker thread, the channel sender is dropped without a
send, and the receiving side observes `Disconnected`. -/

/-- The `Timeout` RunResult built by the SP1 runner when
`rx.recv_timeout` expires. -/
def sp1TimeoutResult (timeoutSecs : Nat) : RunResult :=
  { status := Status.Timeout
    elapsed_ms := timeoutSecs * 1000
    commits := []
    meta := Json.obj [("runner", Json.str "sp1"), ("mode", Json.str "execute"),
                      ("timeout_secs", Json.num timeoutSecs)] }

/-- What the SP1 worker thread sends on the channel, as a function of
the executor outcome: `none` models the thread unwinding before its
send (a failed `public_values.read` in the exact-count arm).  On
executor error the thread sends an `Ok` RunResult with
`status = Panic` and the message in `meta.panic_msg`; on success it
reads either exactly `n` scalars (dying if fewer are available) or the
whole stream. -/
def sp1WorkerSend (exec : Except String (List Nat × Nat))
    (num_commits : Option Nat) (elapsedMs : Nat) :
    Option (Except String RunResult) :=
  match exec with
  | .error e =>
      some (.ok { status := Status.Panic
                  elapsed_ms := elapsedMs
                  commits := []
                  meta := Json.obj [("runner", Json.str "sp1"),
                                    ("mode", Json.str "execute"),
                                    ("panic_msg", Json.str e)] })
  | .ok (stream, cycles) =>
      match num_commits with
      | some n =>
          if stream.length < n then
            none
          else
            some (.ok { status := Status.Ok
                        elapsed_ms := elapsedMs
                        commits := stream.take n
                        meta := Json.obj [("runner", Json.str "sp1"),
                                          ("mode", Json.str "execute"),
                                          ("cycles", Json.num cycles)] })
      | none =>
          some (.ok { status := Status.Ok
                      elapsed_ms := elapsedMs
                      commits := stream
                      meta := Json.obj [("runner", Json.str "sp1"),
                                        ("mode", Json.str "execute"),
                                        ("cycles", Json.num cycles)] })

/-- Embeds `run_sp1_with_safeguards` from `runners/sp1/src/main.rs`.  A worker
that dies without sending surfaces as the `Disconnected` arm:
`anyhow::bail!` under a deadline, `.context(..)` without one — in both
cases a harness-level error, not a RunResult. -/
def run_sp1_with_safeguards (exec : Except String (List Nat × Nat))
    (timeoutSecs : Option Nat) (num_commits : Option Nat)
    (timedOut : Bool) (elapsedMs : Nat) : Except String RunResult :=
  let worker := sp1WorkerSend exec num_commits elapsedMs
  match timeoutSecs with
  | some t =>
      if timedOut then .ok (sp1TimeoutResult t)
      else
        match worker with
        | some res => res
        | none => .error "SP1 runner thread disconnected unexpectedly"
  | none =>
      match worker with
      | some res => res
      | none => .error "SP1 runner thread disconnected"

/-! ## Input mutator (`mutators/source_mut/src/lib.rs`) -/

/-- Embeds `MutatedInput` from `mutators/source_mut/src/lib.rs`. -/
structure MutatedInput where
  input_json : Json
  mutation_op : String
  base_input_path : String

/-- Embeds `MutationStats` from `mutators/source_mut/src/lib.rs`. -/
structure MutationStats where
  total_count : Nat
  min_size : Option Nat
  max_size : Option Nat
  strategy : String

/-- Insertion step for the model of `Vec::sort_unstable` on naturals. -/
def insertNat (x : Nat) : List Nat → List Nat
  | [] => [x]
  | y :: ys => if x ≤ y then x :: y :: ys else y :: insertNat x ys

/-- Model of `Vec::sort_unstable`: insertion sort (any sort produces the
same sorted sequence on these duplicate-free inputs). -/
def sortNat : List Nat → List Nat
  | [] => []
  | x :: xs => insertNat x (sortNat xs)

/-- Model of `Vec::dedup`: removes consecutive duplicates. -/
def dedupNat : List Nat → List Nat
  | [] => []
  | [x] => [x]
  | x :: y :: rest =>
      if x = y then dedupNat (y :: rest) else x :: dedupNat (y :: rest)

/-- The `size_desc` rendering of `generate_io_echo_mutations`: bytes
below 1 KiB, whole KiB below 1 MiB, whole MiB above. -/
def ioEchoSizeDesc (size : Nat) : String :=
  if size < 1024 then toString size ++ "b"
  else if size < 1048576 then toString (size / 1024) ++ "kb"
  else toString (size / 1048576) ++ "mb"

/-- The combined size list of `generate_io_echo_mutations`: powers of
two up to 1 MiB, transition boundaries, small edge cases — concatenated,
sorted, deduplicated. -/
def ioEchoAllSizes : List Nat :=
  dedupNat (sortNat
    ([0, 1, 2, 4, 8, 16, 32, 64, 128, 256, 512,
      1024, 2048, 4096, 8192, 16384, 32768, 65536,
      131072, 262144, 524288, 1048576]
     ++ [127, 255, 1023, 4095, 65535]
     ++ [3, 7, 15, 31, 63]))

/-- The loop body of `generate_io_echo_mutations`: for a size `n`,
payload `data[i] = i mod 256` and tag `length_bias:<human size>`. -/
def ioEchoEntry (base_input_path : String) (size : Nat) : MutatedInput :=
  { input_json := Json.obj
      [("data", Json.arr ((List.range size).map (fun i => Json.num (i % 256))))]
    mutation_op := "length_bias:" ++ ioEchoSizeDesc size
    base_input_path := base_input_path }

/-- Embeds `generate_io_echo_mutations` from `mutators/source_mut/src/lib.rs`:
one `MutatedInput` per deduplicated size. -/
def generate_io_echo_mutations (_base_input : Json) (base_input_path : String) :
    Except String (List MutatedInput) :=
  .ok (ioEchoAllSizes.map (ioEchoEntry base_input_path))

/-- The push body of `generate_arithmetic_mutations`: one boundary
pair with its tag. -/
def arithEntry (base_input_path : String) (a b : Nat) (op : String) : MutatedInput :=
  { input_json := Json.obj
      [("a", Json.num a), ("b", Json.num b), ("operation", Json.str op)]
    mutation_op := "boundary_values:" ++ toString a ++ "_"
      ++ toString b ++ "_op_" ++ op
    base_input_path := base_input_path }

/-- The innermost `for b in boundary_values` loop of
`generate_arithmetic_mutations`.  The accumulator pairs the mutation
vector with its running length (`mutations.len()`); the `(0, 0)` pair
is skipped (`continue`), each other pair is pushed, and after a push
the loop breaks once `mutations.len() >= cap`. -/
def arithBLoop (base_input_path op : String) (a cap : Nat) :
    List Nat → List MutatedInput × Nat → List MutatedInput × Nat
  | [], acc => acc
  | b :: rest, (ms, len) =>
      if a = 0 ∧ b = 0 then arithBLoop base_input_path op a cap rest (ms, len)
      else
        if len + 1 ≥ cap then (ms ++ [arithEntry base_input_path a b op], len + 1)
        else
          arithBLoop base_input_path op a cap rest
            (ms ++ [arithEntry base_input_path a b op], len + 1)

/-- The middle `for a in boundary_values` loop of
`generate_arithmetic_mutations`: runs the inner loop, then breaks once
`mutations.len() >= cap`. -/
def arithALoop (base_input_path op : String) (cap : Nat) (bs : List Nat) :
    List Nat → List MutatedInput × Nat → List MutatedInput × Nat
  | [], acc => acc
  | a :: rest, acc =>
      match arithBLoop base_input_path op a cap bs acc with
      | (ms, len) =>
          if len ≥ cap then (ms, len)
          else arithALoop base_input_path op cap bs rest (ms, len)

/-- The outer `for op in operations` loop of
`generate_arithmetic_mutations`; it has no break of its own. -/
def arithOpLoop (base_input_path : String) (cap : Nat) (bs : List Nat) :
    List String → List MutatedInput × Nat → List MutatedInput × Nat
  | [], acc => acc
  | op :: rest, acc =>
      arithOpLoop base_input_path cap bs rest
        (arithALoop base_input_path op cap bs bs acc)

/-- Embeds `generate_arithmetic_mutations` from
`mutators/source_mut/src/lib.rs`: triple loop over operations ×
boundary `a` × boundary `b` with the break cap
`operations.len() * 6`. -/
def generate_arithmetic_mutations (_base_input : Json) (base_input_path : String) :
    Except String (List MutatedInput) :=
  let operations : List String := ["add", "sub", "mul", "div"]
  let boundary_values : List Nat :=
    [0, 1, 2, 4294967295 / 2, 4294967295 - 1, 4294967295]
  .ok (arithOpLoop base_input_path (operations.length * 6) boundary_values
        operations ([], 0)).1

/-- Helper for `"a".repeat(k)` in `generate_simple_struct_mutations`. -/
def aRepeat (k : Nat) : String :=
  String.mk (List.replicate k 'a')

/-- Embeds `generate_simple_struct_mutations` from
`mutators/source_mut/src/lib.rs`: ten string cases combined with
rotating `field1` and `field3` values by index. -/
def generate_simple_struct_mutations (_base_input : Json) (base_input_path : String) :
    Except String (List MutatedInput) :=
  let string_cases : List (String × String) :=
    [("", "empty"), ("a", "single"), ("hello", "short"),
     (aRepeat 100, "100chars"), (aRepeat 1000, "1000chars"),
     (aRepeat 10000, "10kchars"), ("🦀", "emoji"),
     ("🦀 Rust zkVM", "unicode_mixed"), ("Hello\nWorld", "newline"),
     ("Tab\tSeparated", "tab")]
  let field1_values : List Nat := [0, 1, 42, 4294967295]
  let field3_values : List Bool := [true, false]
  .ok (string_cases.enum.map (fun c =>
    { input_json := Json.obj
        [("field1", Json.num (field1_values.getD (c.1 % field1_values.length) 0)),
         ("field2", Json.str c.2.1),
         ("field3", Json.bool (field3_values.getD (c.1 % field3_values.length) true))]
      mutation_op := "string_variation:" ++ c.2.2
      base_input_path := base_input_path }))

/-- Embeds `generate_fib_mutations` from `mutators/source_mut/src/lib.rs`. -/
def generate_fib_mutations (_base_input : Json) (base_input_path : String) :
    Except String (List MutatedInput) :=
  .ok (([0, 1, 2, 5, 10, 20, 30, 40, 50, 100, 1000] : List Nat).map (fun n =>
    { input_json := Json.obj [("n", Json.num n)]
      mutation_op := "fib_value:n=" ++ toString n
      base_input_path := base_input_path }))

/-- Embeds `generate_panic_test_mutations` from
`mutators/source_mut/src/lib.rs`: four cases; the generated JSON keys
are `should_panic` and `panic_message` (the latter does not match the
core's `panic_msg` field name). -/
def generate_panic_test_mutations (_base_input : Json) (base_input_path : String) :
    Except String (List MutatedInput) :=
  let cases : List (Bool × String) :=
    [(false, "no_panic"), (true, "panic_simple"),
     (true, "panic_with_long_message"), (false, "no_panic_alternate")]
  .ok (cases.map (fun c =>
    let message := if c.1 then "Test panic: " ++ c.2 else ""
    { input_json := Json.obj
        [("should_panic", Json.bool c.1), ("panic_message", Json.str message)]
      mutation_op := "bool_variation:" ++ c.2
      base_input_path := base_input_path }))

/-- Embeds `generate_timeout_test_mutations` from
`mutators/source_mut/src/lib.rs`. -/
def generate_timeout_test_mutations (_base_input : Json) (base_input_path : String) :
    Except String (List MutatedInput) :=
  .ok (([0, 1, 10, 100, 1000, 10000, 100000, 1000000, 10000000] : List Nat).map
    (fun n =>
      { input_json := Json.obj [("iterations", Json.num n)]
        mutation_op := "iteration_variation:" ++ toString n
        base_input_path := base_input_path }))

/-- Embeds `generate_mutations` from `mutators/source_mut/src/lib.rs`:
dispatch on the core name. -/
def generate_mutations (core_name : String) (base_input_json : Json)
    (base_input_path : String) : Except String (List MutatedInput) :=
  if core_name = "io_echo" then
    generate_io_echo_mutations base_input_json base_input_path
  else if core_name = "arithmetic" then
    generate_arithmetic_mutations base_input_json base_input_path
  else if core_name = "simple_struct" then
    generate_simple_struct_mutations base_input_json base_input_path
  else if core_name = "fib" then
    generate_fib_mutations base_input_json base_input_path
  else if core_name = "panic_test" then
    generate_panic_test_mutations base_input_json base_input_path
  else if core_name = "timeout_test" then
    generate_timeout_test_mutations base_input_json base_input_path
  else
    .error ("Unknown core: " ++ core_name)

/-- The payload-size extraction of `calculate_size_stats`:
`input_json.get("data").and_then(as_array)` and its length. -/
def sizeOfMutation (m : MutatedInput) : Option Nat :=
  match m.input_json.getField "data" with
  | some (.arr elems) => some elems.length
  | _ => none

/-- The min/max accumulator loop of `calculate_size_stats`. -/
def sizeMinMaxFold (sizes : List (Option Nat)) : Option Nat × Option Nat :=
  sizes.foldl
    (fun acc s =>
      match s with
      | some size =>
          (some (match acc.1 with | some mn => min mn size | none => size),
           some (match acc.2 with | some mx => max mx size | none => size))
      | none => acc)
    (none, none)

/-- Embeds `calculate_size_stats` from `mutators/source_mut/src/lib.rs`. -/
def calculate_size_stats (mutations : List MutatedInput) : MutationStats :=
  let acc := sizeMinMaxFold (mutations.map sizeOfMutation)
  { total_count := mutations.length
    min_size := acc.1
    max_size := acc.2
    strategy := "length_bias" }

/-- Boolean suffix check on the underlying character lists (used to
classify tags by operation). -/
def strEndsWith (s suffix : String) : Bool :=
  suffix.data.isSuffixOf s.data

/-! ## Claims about the runners and cores -/

/-- Claim C1: for every pair of RunResults, `compare` yields a `Diff`
with `equal = true` iff the statuses agree and (the common status is not
`Ok` or the commit streams are element-wise equal, which for lists is
plain equality); `reason` is populated iff `equal = false`;
`timing_delta_ms = |native.elapsed_ms - zkvm.elapsed_ms|` in every case;
and the result never depends on either `meta` field. -/
theorem c1_compare_oracle (native zkvm : RunResult) :
    ((compare native zkvm).equal = true ↔
      (native.status = zkvm.status ∧
        (native.status ≠ Status.Ok ∨ native.commits = zkvm.commits)))
    ∧ ((compare native zkvm).reason.isSome ↔ (compare native zkvm).equal = false)
    ∧ (compare native zkvm).timing_delta_ms =
        some (Nat.dist native.elapsed_ms zkvm.elapsed_ms)
    ∧ (∀ m m' : Json,
        compare { native with meta := m } { zkvm with meta := m' } =
          compare native zkvm) := by
  have hdist : absDiff native.elapsed_ms zkvm.elapsed_ms =
      Nat.dist native.elapsed_ms zkvm.elapsed_ms := by
    simp only [absDiff, Nat.dist]
    split <;> omega
  refine ⟨?_, ?_, ?_, ?_⟩
  · simp only [compare]
    split_ifs with h1 h2 <;> simp <;> tauto
  · simp only [compare]
    split_ifs with h1 h2 <;> simp
  · simp only [compare]
    split_ifs with h1 h2 <;> simp [hdist]
  · intro m m'
    simp [compare]


/-- Invariant of the fib loop, by induction on the iteration count:
both accumulators stay below 7919, and the wrapping `u32` addition
agrees with the exact one. -/
theorem fibIter_bounds (n : Nat) :
    ((fib_core.fibIter n).1 < 7919 ∧ (fib_core.fibIter n).2 < 7919)
    ∧ fib_core.fibIter n = fib_core.fibIterNoWrap n := by
  induction n with
  | zero => refine ⟨⟨?_, ?_⟩, rfl⟩ <;> norm_num [fib_core.fibIter]
  | succ k ih =>
    obtain ⟨⟨ha, hb⟩, heq⟩ := ih
    have hsum : (fib_core.fibIter k).1 + (fib_core.fibIter k).2 < 4294967296 := by
      omega
    refine ⟨⟨?_, ?_⟩, ?_⟩
    · simpa [fib_core.fibIter, fib_core.fibStep] using hb
    · simp only [fib_core.fibIter, fib_core.fibStep]
      exact Nat.mod_lt _ (by norm_num)
    · simp only [fib_core.fibIter, fib_core.fibIterNoWrap, ← heq, fib_core.fibStep,
        fib_core.fibStepNoWrap, Nat.mod_eq_of_lt hsum]

/-- Claim C10: the fib core's loop is total and overflow-free — after
any number of iterations both accumulators are below 7919, the pending
`u32` addition `a + b` is below `2^32` (so it never wraps and the loop
agrees with the exact arithmetic), each iteration is one application of
the step to the previous state (`n` iterations in all), and `run`
returns the `FibOutput` echoing `n` with the two accumulators, with no
panic path. -/
theorem c10_fib_run_total (n : Nat) :
    ((fib_core.fibIter n).1 < 7919 ∧ (fib_core.fibIter n).2 < 7919)
    ∧ (fib_core.fibIter n).1 + (fib_core.fibIter n).2 < 4294967296
    ∧ fib_core.fibIter n = fib_core.fibIterNoWrap n
    ∧ fib_core.fibIter (n + 1) = fib_core.fibStep (fib_core.fibIter n)
    ∧ fib_core.run { n := n } =
        { n := n, a := (fib_core.fibIter n).1, b := (fib_core.fibIter n).2 } := by
  obtain ⟨⟨ha, hb⟩, heq⟩ := fibIter_bounds n
  exact ⟨⟨ha, hb⟩, by omega, heq, rfl, rfl⟩

/-- Claim C5: on input `{a: 1, b: 0, operation: "div"}` the arithmetic
core panics with message `"Division by zero"`, and the native runner
(when the worker's answer arrives before any deadline) returns an `Ok`
value — the caller is not unwound — carrying a RunResult with
`status = Panic`, `commits = []`, `elapsed_ms = 0`, and the panic
message under `meta.panic_msg`. -/
theorem c5_native_div_zero_panic (timeoutSecs : Option Nat) (elapsedMs : Nat) :
    arithmetic_core.run { a := 1, b := 0, operation := "div" } =
      .error "Division by zero"
    ∧ run_core_with_safeguards "arithmetic"
        (Json.obj [("a", Json.num 1), ("b", Json.num 0), ("operation", Json.str "div")])
        timeoutSecs false elapsedMs =
      some (.ok { status := Status.Panic
                  elapsed_ms := 0
                  commits := []
                  meta := Json.obj [("runner", Json.str "native"),
                                    ("panic_msg", Json.str "Division by zero")] }) := by
  refine ⟨rfl, ?_⟩
  cases timeoutSecs <;> rfl

/-- Claim C6: the native runner on the fib core returns `Ok` with
commits `[10, 55, 89]` for `{n: 10}` and `[0, 0, 1]` for `{n: 0}` —
the commit order being the echoed `n`, then the loop's `a` (the
(n-1)th value), then `b` (the nth value). -/
theorem c6_native_fib_seed_runs (timeoutSecs : Option Nat) (elapsedMs : Nat) :
    run_core_with_safeguards "fib" (Json.obj [("n", Json.num 10)])
        timeoutSecs false elapsedMs =
      some (.ok { status := Status.Ok
                  elapsed_ms := elapsedMs
                  commits := [10, 55, 89]
                  meta := Json.obj [("runner", Json.str "native")] })
    ∧ run_core_with_safeguards "fib" (Json.obj [("n", Json.num 0)])
        timeoutSecs false elapsedMs =
      some (.ok { status := Status.Ok
                  elapsed_ms := elapsedMs
                  commits := [0, 0, 1]
                  meta := Json.obj [("runner", Json.str "native")] })
    ∧ fib_core.run { n := 10 } = { n := 10, a := 55, b := 89 }
    ∧ fib_core.run { n := 0 } = { n := 0, a := 0, b := 1 } := by
  refine ⟨?_, ?_, rfl, rfl⟩ <;> cases timeoutSecs <;> rfl

/-- Claim C7: the native runner commits io_echo outputs as
`[length, first_byte, last_byte]` with each `Option<u8>` encoded as a
`u32` via `None → 0`, `Some(b) → 1 + b` — hence within `0..=256` for
byte-valued data — and on the two seed inputs `{data: []}` and
`{data: [42]}` the dispatch yields commits `[0, 0, 0]` and
`[1, 43, 43]`. -/
theorem c7_io_echo_commit_encoding :
    (∀ d : io_echo_core.IoEchoInput,
      io_echo_core.run d =
        { length := d.data.length % 4294967296
          first_byte := d.data.head?
          last_byte := d.data.getLast? })
    ∧ (∀ d : io_echo_core.IoEchoInput, (∀ x ∈ d.data, x < 256) →
        encodeOptU8 (io_echo_core.run d).first_byte ≤ 256 ∧
        encodeOptU8 (io_echo_core.run d).last_byte ≤ 256)
    ∧ run_core_dispatch "io_echo" (Json.obj [("data", Json.arr [])]) =
        .ok [0, 0, 0]
    ∧ run_core_dispatch "io_echo" (Json.obj [("data", Json.arr [Json.num 42])]) =
        .ok [1, 43, 43] := by
  refine ⟨fun d => rfl, ?_, rfl, rfl⟩
  intro d h
  constructor
  · cases hd : d.data with
    | nil => simp [io_echo_core.run, hd, encodeOptU8]
    | cons a l =>
      have ha : a < 256 := h a (hd ▸ List.mem_cons_self a l)
      simp only [io_echo_core.run, hd, List.head?_cons, encodeOptU8]
      omega
  · rcases hl : d.data.getLast? with _ | b
    · simp [io_echo_core.run, hl, encodeOptU8]
    · have hmem : b ∈ d.data := by
        obtain ⟨hne, hb⟩ :=
          List.mem_getLast?_eq_getLast (l := d.data) (x := b) (by simp [hl])
        exact hb ▸ List.getLast_mem hne
      have hb : b < 256 := h b hmem
      simp only [io_echo_core.run, hl, encodeOptU8]
      omega

/-- Witness for C7: the bound part of the claim applied to the concrete
input `{data: [42]}`. -/
theorem c7_io_echo_commit_encoding_witness :
    (∀ x ∈ ([42] : List Nat), x < 256) ∧
    (encodeOptU8 (io_echo_core.run { data := [42] }).first_byte ≤ 256 ∧
     encodeOptU8 (io_echo_core.run { data := [42] }).last_byte ≤ 256) :=
  ⟨by decide, c7_io_echo_commit_encoding.2.1 { data := [42] } (by decide)⟩

/-- Claim C2: any RunResult either runner hands to the orchestrator
with `status = Panic` or `status = Timeout` has an empty commit
sequence, for every core name, input, deadline and race outcome. -/
theorem c2_panic_timeout_commits_empty :
    (∀ (core_name : String) (input : Json) (timeoutSecs : Option Nat)
        (timedOut : Bool) (elapsedMs : Nat) (r : RunResult),
      run_core_with_safeguards core_name input timeoutSecs timedOut elapsedMs =
          some (.ok r) →
      (r.status = Status.Panic ∨ r.status = Status.Timeout) →
      r.commits = [])
    ∧ (∀ (exec : Except String (List Nat × Nat)) (timeoutSecs : Option Nat)
        (num_commits : Option Nat) (timedOut : Bool) (elapsedMs : Nat)
        (r : RunResult),
      run_sp1_with_safeguards exec timeoutSecs num_commits timedOut elapsedMs =
          .ok r →
      (r.status = Status.Panic ∨ r.status = Status.Timeout) →
      r.commits = []) := by
  constructor
  · intro core_name input timeoutSecs timedOut elapsedMs r hrun hst
    unfold run_core_with_safeguards nativeWorkerSend at hrun
    rcases hd : run_core_dispatch core_name input with commits | e | msg | _ <;>
      rw [hd] at hrun <;>
      cases timeoutSecs <;>
      cases timedOut <;>
      simp [nativeTimeoutResult] at hrun <;>
      subst hrun <;>
      rcases hst with h | h <;>
      simp_all
  · intro exec timeoutSecs num_commits timedOut elapsedMs r hrun hst
    rcases exec with e | ⟨stream, cycles⟩
    · rcases timeoutSecs with _ | t
      · simp [run_sp1_with_safeguards, sp1WorkerSend] at hrun
        rw [← hrun]
      · cases timedOut
        · simp [run_sp1_with_safeguards, sp1WorkerSend] at hrun
          rw [← hrun]
        · simp [run_sp1_with_safeguards, sp1TimeoutResult] at hrun
          rw [← hrun]
    · rcases num_commits with _ | n
      · rcases timeoutSecs with _ | t
        · simp [run_sp1_with_safeguards, sp1WorkerSend] at hrun
          rw [← hrun] at hst
          simp at hst
        · cases timedOut
          · simp [run_sp1_with_safeguards, sp1WorkerSend] at hrun
            rw [← hrun] at hst
            simp at hst
          · simp [run_sp1_with_safeguards, sp1TimeoutResult] at hrun
            rw [← hrun]
      · rcases timeoutSecs with _ | t
        · by_cases hc : stream.length < n
          · simp [run_sp1_with_safeguards, sp1WorkerSend, hc] at hrun
          · simp [run_sp1_with_safeguards, sp1WorkerSend, hc] at hrun
            rw [← hrun] at hst
            simp at hst
        · cases timedOut
          · by_cases hc : stream.length < n
            · simp [run_sp1_with_safeguards, sp1WorkerSend, hc] at hrun
            · simp [run_sp1_with_safeguards, sp1WorkerSend, hc] at hrun
              rw [← hrun] at hst
              simp at hst
          · simp [run_sp1_with_safeguards, sp1TimeoutResult] at hrun
            rw [← hrun]

/-- Witness for C2: both halves applied at concrete runs — the native
runner on the division-by-zero input (a `Panic` result) and the SP1
runner on an executor error (a `Panic` result). -/
theorem c2_panic_timeout_commits_empty_witness :
    run_core_with_safeguards "arithmetic"
        (Json.obj [("a", Json.num 1), ("b", Json.num 0), ("operation", Json.str "div")])
        (some 30) false 5 =
      some (.ok { status := Status.Panic
                  elapsed_ms := 0
                  commits := []
                  meta := Json.obj [("runner", Json.str "native"),
                                    ("panic_msg", Json.str "Division by zero")] })
    ∧ (RunResult.mk Status.Panic 0 []
        (Json.obj [("runner", Json.str "native"),
                   ("panic_msg", Json.str "Division by zero")])).commits = []
    ∧ run_sp1_with_safeguards (.error "guest trap") (some 30) (some 2) false 7 =
      .ok { status := Status.Panic
            elapsed_ms := 7
            commits := []
            meta := Json.obj [("runner", Json.str "sp1"), ("mode", Json.str "execute"),
                              ("panic_msg", Json.str "guest trap")] }
    ∧ (RunResult.mk Status.Panic 7 []
        (Json.obj [("runner", Json.str "sp1"), ("mode", Json.str "execute"),
                   ("panic_msg", Json.str "guest trap")])).commits = [] :=
  ⟨rfl,
   c2_panic_timeout_commits_empty.1 "arithmetic"
     (Json.obj [("a", Json.num 1), ("b", Json.num 0), ("operation", Json.str "div")])
     (some 30) false 5 _ rfl (Or.inl rfl),
   rfl,
   c2_panic_timeout_commits_empty.2 (.error "guest trap") (some 30) (some 2) false 7
     _ rfl (Or.inl rfl)⟩

/-- Counterexample to claim C3: with a successful executor whose
public-values stream holds no scalar and `expected_commit_count = 2`,
the SP1 runner does NOT classify the failed read as `status = Panic`;
the worker thread unwinds and the call surfaces the harness-level
error `"SP1 runner thread disconnected unexpectedly"`. -/
theorem c3_decode_failure_counterexample :
    run_sp1_with_safeguards (.ok ([], 0)) (some 30) (some 2) false 5 =
      .error "SP1 runner thread disconnected unexpectedly"
    ∧ ∀ r : RunResult,
        run_sp1_with_safeguards (.ok ([], 0)) (some 30) (some 2) false 5 ≠ .ok r := by
  exact ⟨rfl, fun r h => by simp [run_sp1_with_safeguards, sp1WorkerSend] at h⟩

/-- Claim C3 as amended: when the executor returns an error the run is
classified `status = Panic` with the message captured in
`meta.panic_msg`; but when the executor succeeds and the stream holds
fewer than `expected_commit_count` scalars, the exact-count read
unwinds the worker thread and the runner surfaces a harness-level
"thread disconnected" error instead of a `Panic` RunResult. -/
theorem c3_sp1_error_classification (timeoutSecs : Option Nat) :
    (∀ (e : String) (num_commits : Option Nat) (elapsedMs : Nat),
      run_sp1_with_safeguards (.error e) timeoutSecs num_commits false elapsedMs =
        .ok { status := Status.Panic
              elapsed_ms := elapsedMs
              commits := []
              meta := Json.obj [("runner", Json.str "sp1"), ("mode", Json.str "execute"),
                                ("panic_msg", Json.str e)] })
    ∧ (∀ (stream : List Nat) (cycles t n elapsedMs : Nat),
        stream.length < n →
        run_sp1_with_safeguards (.ok (stream, cycles)) (some t) (some n)
            false elapsedMs =
          .error "SP1 runner thread disconnected unexpectedly") := by
  constructor
  · intro e num_commits elapsedMs
    cases timeoutSecs <;> rfl
  · intro stream cycles t n elapsedMs hlen
    simp [run_sp1_with_safeguards, sp1WorkerSend, hlen]

/-- Witness for the amended C3: an empty stream against an expected
count of 1, under a 30-second deadline. -/
theorem c3_sp1_error_classification_witness :
    ([] : List Nat).length < 1 ∧
    run_sp1_with_safeguards (.ok ([], 0)) (some 30) (some 1) false 5 =
      .error "SP1 runner thread disconnected unexpectedly" :=
  ⟨by decide,
   (c3_sp1_error_classification (some 30)).2 [] 0 30 1 5 (by decide)⟩

/-- Each io_echo catalogue entry exposes a `data` array of exactly its
size. -/
theorem sizeOfMutation_ioEchoEntry (p : String) (n : Nat) :
    sizeOfMutation (ioEchoEntry p n) = some n := by
  simp [sizeOfMutation, ioEchoEntry, Json.getField, List.find?]

/-- The size statistics of an io_echo catalogue reduce to a pure fold
over the size list. -/
theorem calculate_size_stats_ioEcho (p : String) (l : List Nat) :
    calculate_size_stats (l.map (ioEchoEntry p)) =
      { total_count := l.length
        min_size := (sizeMinMaxFold (l.map some)).1
        max_size := (sizeMinMaxFold (l.map some)).2
        strategy := "length_bias" } := by
  have hmap : (l.map (ioEchoEntry p)).map sizeOfMutation = l.map some := by
    rw [List.map_map]
    exact List.map_congr_left (fun n _ => sizeOfMutation_ioEchoEntry p n)
  simp [calculate_size_stats, hmap, List.length_map]

/-- Claim C8: the io_echo mutation catalogue has one entry per size in
the sorted, deduplicated union of the powers of two up to 1,048,576,
the boundaries {127, 255, 1023, 4095, 65535} and the edge cases
{3, 7, 15, 31, 63}; each entry's payload is `data[i] = i mod 256` and
its tag is `length_bias:<human size>`; and `calculate_size_stats` over
the catalogue reports `min_size = 0`, `max_size = 1,048,576` and a
count of 32 ≥ 27. -/
theorem c8_io_echo_catalogue (b : Json) (p : String) :
    generate_mutations "io_echo" b p = .ok (ioEchoAllSizes.map (ioEchoEntry p))
    ∧ ioEchoAllSizes = [0, 1, 2, 3, 4, 7, 8, 15, 16, 31, 32, 63, 64, 127, 128,
        255, 256, 512, 1023, 1024, 2048, 4095, 4096, 8192, 16384, 32768, 65535,
        65536, 131072, 262144, 524288, 1048576]
    ∧ (∀ n, (ioEchoEntry p n).input_json =
        Json.obj [("data", Json.arr ((List.range n).map (fun i => Json.num (i % 256))))])
    ∧ (∀ n, (ioEchoEntry p n).mutation_op = "length_bias:" ++ ioEchoSizeDesc n)
    ∧ (calculate_size_stats (ioEchoAllSizes.map (ioEchoEntry p))).min_size = some 0
    ∧ (calculate_size_stats (ioEchoAllSizes.map (ioEchoEntry p))).max_size = some 1048576
    ∧ (calculate_size_stats (ioEchoAllSizes.map (ioEchoEntry p))).total_count = 32
    ∧ 27 ≤ (calculate_size_stats (ioEchoAllSizes.map (ioEchoEntry p))).total_count := by
  refine ⟨rfl, by decide, fun n => rfl, fun n => rfl, ?_, ?_, ?_, ?_⟩ <;>
    rw [calculate_size_stats_ioEcho] <;> decide

/-- Claim C9: every panic_test mutation stores its text under the JSON
key `panic_message` and carries no key `panic_msg`; decoding any of
them as `PanicInput` therefore yields `panic_msg = None`, and both
panicking cases (the long-message one included) panic with the default
message `"Intentional panic for testing"`, not the generated text. -/
theorem c9_panic_test_key_mismatch (b : Json) (p : String) :
    generate_mutations "panic_test" b p = .ok
      [{ input_json := Json.obj [("should_panic", Json.bool false),
           ("panic_message", Json.str "")]
         mutation_op := "bool_variation:no_panic", base_input_path := p },
       { input_json := Json.obj [("should_panic", Json.bool true),
           ("panic_message", Json.str "Test panic: panic_simple")]
         mutation_op := "bool_variation:panic_simple", base_input_path := p },
       { input_json := Json.obj [("should_panic", Json.bool true),
           ("panic_message", Json.str "Test panic: panic_with_long_message")]
         mutation_op := "bool_variation:panic_with_long_message", base_input_path := p },
       { input_json := Json.obj [("should_panic", Json.bool false),
           ("panic_message", Json.str "")]
         mutation_op := "bool_variation:no_panic_alternate", base_input_path := p }]
    ∧ (∀ sp msg,
        (Json.obj [("should_panic", Json.bool sp),
          ("panic_message", Json.str msg)]).hasKey "panic_message" = true
        ∧ (Json.obj [("should_panic", Json.bool sp),
            ("panic_message", Json.str msg)]).hasKey "panic_msg" = false
        ∧ parsePanicInput (Json.obj [("should_panic", Json.bool sp),
            ("panic_message", Json.str msg)]) =
          .ok { should_panic := sp, panic_msg := none })
    ∧ panic_test_core.run { should_panic := true, panic_msg := none } =
        .error "Intentional panic for testing" := by
  refine ⟨rfl, fun sp msg => ⟨rfl, rfl, ?_⟩, rfl⟩
  cases sp <;> rfl

/-- Claim C4 evaluated on the code at a concrete call: because the
break condition `mutations.len() >= operations.len() * 6` caps the
TOTAL at 24 and is only checked after a push, the `add` operation
receives 24 entries (every pair up to `(MAX-1, 0)`, with `(0, 0)`
skipped) while `sub`, `mul` and `div` receive a single `(0, 1)` entry
each — 27 entries in all, so the catalogue is NOT capped at 6 entries
per operation. -/
theorem c4_arithmetic_cap_is_global :
    (generate_mutations "arithmetic" Json.null "base.json").map
        (fun ms => ms.map (fun m => m.mutation_op)) =
      .ok ["boundary_values:0_1_op_add",
           "boundary_values:0_2_op_add",
           "boundary_values:0_2147483647_op_add",
           "boundary_values:0_4294967294_op_add",
           "boundary_values:0_4294967295_op_add",
           "boundary_values:1_0_op_add",
           "boundary_values:1_1_op_add",
           "boundary_values:1_2_op_add",
           "boundary_values:1_2147483647_op_add",
           "boundary_values:1_4294967294_op_add",
           "boundary_values:1_4294967295_op_add",
           "boundary_values:2_0_op_add",
           "boundary_values:2_1_op_add",
           "boundary_values:2_2_op_add",
           "boundary_values:2_2147483647_op_add",
           "boundary_values:2_4294967294_op_add",
           "boundary_values:2_4294967295_op_add",
           "boundary_values:2147483647_0_op_add",
           "boundary_values:2147483647_1_op_add",
           "boundary_values:2147483647_2_op_add",
           "boundary_values:2147483647_2147483647_op_add",
           "boundary_values:2147483647_4294967294_op_add",
           "boundary_values:2147483647_4294967295_op_add",
           "boundary_values:4294967294_0_op_add",
           "boundary_values:0_1_op_sub",
           "boundary_values:0_1_op_mul",
           "boundary_values:0_1_op_div"]
    ∧ (generate_mutations "arithmetic" Json.null "base.json").map
        (fun ms => (ms.filter (fun m => strEndsWith m.mutation_op "_op_add")).length) =
      .ok 24
    ∧ (generate_mutations "arithmetic" Json.null "base.json").map
        (fun ms => ms.length) = .ok 27 := by
  refine ⟨rfl, rfl, rfl⟩

end ZkFuzz
